import Mathlib

/-!
Verification development for the support-ticket backend.

The definitions below are a shallow embedding of the repository code:
the SQLAlchemy models (app/models.py), the ticket workflow operations
(operations/ticket_operations.py), the WebSocket connection registry
(app/websocket_manager.py), and the HTTP / WebSocket routers
(routers/ticket_router.py, routers/websocket_router.py).

Persistent state is modelled as explicit lists of rows; machine-level
details that the claims do not depend on (SQL sessions, JWT signing,
rate limiting, Celery task dispatch) are abstracted away. Fallible
operations return Option, endpoint handlers return an explicit result
variant. A send over a live socket may fail; this is modelled by a
predicate on channels saying which sends succeed.
-/

namespace TicketSystem

/-- Roles of app/schemas.py, class UserRole: exactly user and agent. -/
inductive UserRole where
  | user
  | agent
  deriving DecidableEq, Repr

/-- Statuses of app/schemas.py, class TicketStatus: open, in_review, close.
The Lean name open_ stands for the source value open, a reserved word here. -/
inductive TicketStatus where
  | open_
  | in_review
  | close
  deriving DecidableEq, Repr

/-- Row of the users table, app/models.py class User. -/
structure User where
  id : Nat
  email : String
  hashed_password : String
  role : UserRole
  deriving DecidableEq, Repr

/-- Row of the tickets table, app/models.py class Ticket.
created_at is a server-side timestamp, modelled as a Nat. -/
structure Ticket where
  id : Nat
  title : String
  description : Option String
  status : TicketStatus
  created_at : Nat
  created_by : Nat
  deriving DecidableEq, Repr

/-- Row of the replies table, app/models.py class Reply. -/
structure Reply where
  id : Nat
  ticket_id : Nat
  message : String
  created_at : Nat
  replied_by : Nat
  deriving DecidableEq, Repr

/-- The persisted store: the three tables, the id sequences, and the
server clock that func.now() reads for created_at columns. Rows are kept
in insertion order, which is the physical order the tables grow in. -/
structure DB where
  users : List User
  tickets : List Ticket
  replies : List Reply
  next_ticket_id : Nat
  next_reply_id : Nat
  now : Nat
  deriving DecidableEq, Repr

/-- The query select(Ticket).where(Ticket.id == ticket_id) followed by
scalars().first(), as issued by get_ticket and add_reply in
operations/ticket_operations.py. -/
def find_ticket (db : DB) (ticket_id : Nat) : Option Ticket :=
  db.tickets.find? (fun t => t.id == ticket_id)

/-- get_ticket of operations/ticket_operations.py: the ticket row or none.
The eager loading (joinedload of replies and creator) is modelled by the
separate reply fetch below. -/
def get_ticket (db : DB) (ticket_id : Nat) : Option Ticket :=
  find_ticket db ticket_id

/-- create_ticket of operations/ticket_operations.py: inserts a ticket row.
The status column takes its default open (models.py), created_at is set
server-side from the clock, and the id from the sequence. Returns the new
store and the refreshed ticket object. -/
def create_ticket (db : DB) (title : String) (description : Option String)
    (created_by : Nat) : DB × Ticket :=
  let t : Ticket :=
    { id := db.next_ticket_id, title := title, description := description,
      status := TicketStatus.open_, created_at := db.now, created_by := created_by }
  ({ db with tickets := db.tickets ++ [t],
             next_ticket_id := db.next_ticket_id + 1 }, t)

/-- add_reply of operations/ticket_operations.py: re-selects the ticket,
returns none leaving the store untouched when it is absent, otherwise
inserts a reply row (id and created_at set server-side) and returns it.
The ticket row itself, in particular its status, is not written. -/
def add_reply (db : DB) (ticket_id : Nat) (message : String)
    (replied_by : Nat) : DB × Option Reply :=
  match find_ticket db ticket_id with
  | none => (db, none)
  | some _ =>
    let r : Reply :=
      { id := db.next_reply_id, ticket_id := ticket_id, message := message,
        created_at := db.now, replied_by := replied_by }
    ({ db with replies := db.replies ++ [r],
               next_reply_id := db.next_reply_id + 1 }, some r)

/-- change_ticket_status of operations/ticket_operations.py: assigns the
new status to the ticket object and commits, i.e. the row with that id is
overwritten; there is no transition guard of any kind. Returns the new
store and the refreshed ticket. -/
def change_ticket_status (db : DB) (ticket : Ticket)
    (ticket_status : TicketStatus) : DB × Ticket :=
  ({ db with tickets := db.tickets.map (fun t =>
      if t.id = ticket.id then { t with status := ticket_status } else t) },
   { ticket with status := ticket_status })

/-- The reply rows of one ticket, in table (insertion) order. -/
def repliesFor (db : DB) (ticket_id : Nat) : List Reply :=
  db.replies.filter (fun r => r.ticket_id == ticket_id)

/-- The row order the store returns for the eager reply load. The query
(get_ticket with joinedload of Ticket.replies) issues no ORDER BY and the
replies relationship in models.py declares no order_by, so the database
may enumerate the matching rows in any order: a result is legal exactly
when it is a permutation of the matching rows. -/
def storeOrder (db : DB) (ticket_id : Nat) (rows : List Reply) : Prop :=
  rows.Perm (repliesFor db ticket_id)

/-- get_ticket_with_replies of operations/ticket_operations.py: none when
the ticket is absent, otherwise the ticket together with list(ticket.replies),
where the reply rows arrive in whatever order the store enumerated them
(the rows argument, constrained by storeOrder at use sites). -/
def get_ticket_with_replies (db : DB) (ticket_id : Nat)
    (rows : List Reply) : Option (Ticket × List Reply) :=
  match get_ticket db ticket_id with
  | none => none
  | some t => some (t, rows)

/-- Ascending creation time, the order the spec asserts for reply lists. -/
def sortedByCreation (l : List Reply) : Prop :=
  l.Pairwise (fun a b => a.created_at ≤ b.created_at)

variable {Chan : Type} [DecidableEq Chan]

/-- The state of ConnectionManager (app/websocket_manager.py): the active
dictionary from ticket id to the list of registered channels, in
registration order. The dictionary default (a missing key reads as the
empty list, as every access goes through get or setdefault) makes a total
function an exact model. -/
abbrev Manager (Chan : Type) := Nat → List Chan

/-- The state right after ConnectionManager.__init__: no connections. -/
def emptyManager : Manager Chan := fun _ => []

/-- ConnectionManager.connect: accepts the socket, then appends it to the
list for the ticket room (setdefault followed by append). -/
def connect (m : Manager Chan) (ticket_id : Nat) (ws : Chan) : Manager Chan :=
  fun t => if t = ticket_id then m ticket_id ++ [ws] else m t

/-- ConnectionManager.disconnect: when the channel is in the list for the
room, remove its first occurrence (Python list.remove); otherwise do
nothing. -/
def disconnect (m : Manager Chan) (ticket_id : Nat) (ws : Chan) : Manager Chan :=
  fun t => if t = ticket_id then (m ticket_id).erase ws else m t

/-- Outcome of ConnectionManager.broadcast. Each send over a live channel
may fail (the socket is closed or unreachable); the source loops over the
room list awaiting send_text with no exception handling, so a failing send
raises out of the loop: the channels already visited received the message,
the rest were never attempted, and the failing channel is reported upward. -/
inductive BroadcastResult (Chan : Type) where
  | ok (delivered : List (Chan × String))
  | raised (delivered : List (Chan × String)) (failed : Chan)
  deriving DecidableEq, Repr

/-- The pairs actually sent, whether or not the loop completed. -/
def BroadcastResult.delivered : BroadcastResult Chan → List (Chan × String)
  | .ok d => d
  | .raised d _ => d

/-- The send loop of ConnectionManager.broadcast over one room list.
sendOk says which channels accept a send; the loop stops at the first
channel whose send fails. -/
def broadcastRun (sendOk : Chan → Bool) (message : String) :
    List Chan → BroadcastResult Chan
  | [] => .ok []
  | c :: cs =>
    if sendOk c = true then
      match broadcastRun sendOk message cs with
      | .ok d => .ok ((c, message) :: d)
      | .raised d f => .raised ((c, message) :: d) f
    else .raised [] c

/-- ConnectionManager.broadcast: iterate over active.get(ticket_id, []) in
order, sending the message to each channel. The registry state is not
modified by broadcast (in particular no channel is ever removed by it). -/
def broadcast (sendOk : Chan → Bool) (m : Manager Chan) (ticket_id : Nat)
    (message : String) : BroadcastResult Chan :=
  broadcastRun sendOk message (m ticket_id)

/-- Observable outcome of the connect phase of the WebSocket endpoint
ticket_ws (routers/websocket_router.py): whether the socket was accepted,
the close code the handler sent if it closed the socket, whether
manager.connect registered the channel, and the registry afterwards. -/
structure WsStep (Chan : Type) where
  accepted : Bool
  closeCode : Option Nat
  registered : Bool
  manager : Manager Chan

/-- ticket_ws of routers/websocket_router.py, connect phase. The handler
reads the token query parameter; when it is absent or empty (falsy) it
closes the socket with code 4401 and returns. Otherwise it calls
manager.connect, which accepts and registers the socket, and enters the
receive loop. The resolve_token parameter stands for the Credential
Service resolution (validate_websocket_token of app/auth.py); the source
never invokes it, which the definition reflects by not using it. -/
def ticket_ws (resolve_token : String → Option Nat) (m : Manager Chan)
    (ticket_id : Nat) (websocket : Chan) (token : Option String) : WsStep Chan :=
  match token with
  | none =>
    { accepted := false, closeCode := some 4401, registered := false, manager := m }
  | some s =>
    if s = "" then
      { accepted := false, closeCode := some 4401, registered := false, manager := m }
    else
      { accepted := true, closeCode := none, registered := true,
        manager := connect m ticket_id websocket }

/-- Outcome of an HTTP endpoint call: a successful response body, a 404,
or an unhandled exception escaping the handler (a 500 to the client). -/
inductive EndpointResult (α : Type) where
  | ok (value : α)
  | notFound
  | error
  deriving DecidableEq, Repr

/-- add_reply of routers/ticket_router.py: load the ticket (404 when
absent), insert the reply via the store operation (404 when that reports
the ticket absent), then broadcast the notification to the room. The
broadcast is awaited with no exception handling, so a failing send raises
out of the handler after the reply is already committed; the registry is
returned unchanged because nothing in this path ever mutates it. The
fire-and-forget Celery dispatches do not touch store or registry and are
omitted. -/
def add_reply_endpoint (sendOk : Chan → Bool) (m : Manager Chan) (db : DB)
    (ticket_id : Nat) (message : String) (agent_id : Nat) :
    DB × Manager Chan × EndpointResult Reply :=
  match get_ticket db ticket_id with
  | none => (db, m, .notFound)
  | some _ =>
    match add_reply db ticket_id message agent_id with
    | (db1, none) => (db1, m, .notFound)
    | (db1, some r) =>
      match broadcast sendOk m ticket_id message with
      | .ok _ => (db1, m, .ok r)
      | .raised _ _ => (db1, m, .error)

/-- Result of the ticket detail endpoint: the body, 404, or 403. -/
inductive DetailResult where
  | ok (ticket : Ticket) (replies : List Reply)
  | notFound
  | forbidden
  deriving DecidableEq, Repr

/-- get_ticket_detail of routers/ticket_router.py: 404 when
get_ticket_with_replies finds no ticket; then 403 exactly when the
requester has the user role and is not the owner (is_user and
is_not_owner in the source); otherwise the detail body. -/
def get_ticket_detail (db : DB) (current_user : User) (ticket_id : Nat)
    (rows : List Reply) : DetailResult :=
  match get_ticket_with_replies db ticket_id rows with
  | none => .notFound
  | some (t, rs) =>
    if current_user.role = UserRole.user ∧ t.created_by ≠ current_user.id then
      .forbidden
    else
      .ok t rs

/-! Concrete instances used by witnesses and counterexamples. -/

def agentMail : String := "agent@example.com"

def ownerMail : String := "owner@example.com"

def otherMail : String := "other@example.com"

def hashMock : String := "hashed"

def exTitle : String := "WS Ticket"

def msgFirst : String := "first reply"

def msgSecond : String := "second reply"

def exMessage : String := "New reply"

def badToken : String := "not-a-valid-jwt"

/-- A registry with two channels, 10 then 20, registered for ticket 1. -/
def twoChanManager : Manager Nat := connect (connect (emptyManager : Manager Nat) 1 10) 1 20

/-- Sends succeed on every channel except channel 10. -/
def failOn10 : Nat → Bool := fun c => !(c == 10)

def exAgent : User := { id := 7, email := agentMail, hashed_password := hashMock, role := UserRole.agent }

def exOwner : User := { id := 1, email := ownerMail, hashed_password := hashMock, role := UserRole.user }

def exOther : User := { id := 2, email := otherMail, hashed_password := hashMock, role := UserRole.user }

def exTicket : Ticket := { id := 1, title := exTitle, description := none, status := TicketStatus.open_, created_at := 0, created_by := 1 }

def exReply1 : Reply := { id := 1, ticket_id := 1, message := msgFirst, created_at := 1, replied_by := 7 }

def exReply2 : Reply := { id := 2, ticket_id := 1, message := msgSecond, created_at := 2, replied_by := 7 }

/-- A store holding the three users, one ticket, and two replies in
insertion order. -/
def exDB : DB :=
  { users := [exOwner, exOther, exAgent], tickets := [exTicket],
    replies := [exReply1, exReply2], next_ticket_id := 2, next_reply_id := 3, now := 9 }

/-! Helper lemmas about the send loop and the registry. -/

/-- When every channel in the room list accepts the send, the loop
completes and delivers the message to each channel in order. -/
theorem broadcastRun_all_ok (sendOk : Chan → Bool) (message : String)
    (l : List Chan) (h : ∀ c ∈ l, sendOk c = true) :
    broadcastRun sendOk message l = .ok (l.map (fun c => (c, message))) := by
  induction l with
  | nil => rfl
  | cons c cs ih =>
    have hc : sendOk c = true := h c (List.mem_cons_self c cs)
    have hcs : ∀ d ∈ cs, sendOk d = true :=
      fun d hd => h d (List.mem_cons_of_mem c hd)
    simp only [broadcastRun, hc, if_true, ih hcs, List.map_cons]

/-- Every pair the send loop delivers targets a channel of the room list. -/
theorem broadcastRun_delivered_mem (sendOk : Chan → Bool) (message : String)
    (l : List Chan) (p : Chan × String)
    (hp : p ∈ (broadcastRun sendOk message l).delivered) : p.1 ∈ l := by
  induction l with
  | nil => simp [broadcastRun, BroadcastResult.delivered] at hp
  | cons c cs ih =>
    by_cases hc : sendOk c = true
    · simp only [broadcastRun, hc, if_true] at hp
      cases hrec : broadcastRun sendOk message cs with
      | ok d =>
        rw [hrec] at hp
        simp only [BroadcastResult.delivered, List.mem_cons] at hp
        rcases hp with hp | hp
        · rw [hp]; exact List.mem_cons_self c cs
        · exact List.mem_cons_of_mem c (ih (by rw [hrec]; exact hp))
      | raised d f =>
        rw [hrec] at hp
        simp only [BroadcastResult.delivered, List.mem_cons] at hp
        rcases hp with hp | hp
        · rw [hp]; exact List.mem_cons_self c cs
        · exact List.mem_cons_of_mem c (ih (by rw [hrec]; exact hp))
    · simp only [broadcastRun, hc, if_false] at hp
      simp [BroadcastResult.delivered] at hp

/-- Registering a channel under one ticket leaves every other room as it
was. -/
theorem connect_other (m : Manager Chan) (t t2 : Nat) (c : Chan)
    (hne : t2 ≠ t) : connect m t c t2 = m t2 := by
  simp [connect, hne]

/-- Removing a channel from one room leaves every other room as it was. -/
theorem disconnect_other (m : Manager Chan) (t t2 : Nat) (c : Chan)
    (hne : t2 ≠ t) : disconnect m t c t2 = m t2 := by
  simp [disconnect, hne]

/-- The room list after connect followed by disconnect of a channel that
was not registered before: back to the original list. -/
theorem connect_disconnect_fresh (m : Manager Chan) (t : Nat) (c : Chan)
    (h : c ∉ m t) : disconnect (connect m t c) t c t = m t := by
  have h1 : connect m t c t = m t ++ [c] := by simp [connect]
  have h2 : disconnect (connect m t c) t c t = (connect m t c t).erase c := by
    simp [disconnect]
  rw [h2, h1, List.erase_append_right _ h, List.erase_cons_head, List.append_nil]

/-- C3: broadcast(t, m) sends m to every channel registered for t at call
time (in registration order) and to no channel not registered for t, so in
particular to none registered only for a different ticket; and connect or
disconnect on ticket t leaves the room of any other ticket t2 unchanged,
while broadcast never mutates the registry at all. Stated for a call whose
sends all succeed. -/
theorem C3_broadcast_room_isolation (m : Manager Chan) (t t2 : Nat)
    (c0 : Chan) (msg2 : String) (sendOk : Chan → Bool)
    (hok : ∀ c ∈ m t, sendOk c = true) (hne : t2 ≠ t) :
    broadcast sendOk m t msg2 = .ok ((m t).map (fun c => (c, msg2)))
    ∧ (∀ c : Chan, c ∉ m t →
        ∀ p ∈ (broadcast sendOk m t msg2).delivered, p.1 ≠ c)
    ∧ connect m t c0 t2 = m t2
    ∧ disconnect m t c0 t2 = m t2 := by
  refine ⟨broadcastRun_all_ok sendOk msg2 (m t) hok, ?_,
    connect_other m t t2 c0 hne, disconnect_other m t t2 c0 hne⟩
  intro c hc p hp hpc
  have hmem : p.1 ∈ m t := broadcastRun_delivered_mem sendOk msg2 (m t) p hp
  rw [hpc] at hmem
  exact hc hmem

/-- Witness for C3 at a concrete registry: channels 10 and 20 in room 1,
all sends succeeding, with room 0 the unrelated room. -/
theorem C3_witness :
    broadcast (fun _ => true) twoChanManager 1 exMessage
      = .ok ((twoChanManager 1).map (fun c => (c, exMessage)))
    ∧ (∀ c : Nat, c ∉ twoChanManager 1 →
        ∀ p ∈ (broadcast (fun _ => true) twoChanManager 1 exMessage).delivered,
          p.1 ≠ c)
    ∧ connect twoChanManager 1 30 0 = twoChanManager 0
    ∧ disconnect twoChanManager 1 30 0 = twoChanManager 0 :=
  C3_broadcast_room_isolation twoChanManager 1 0 30 exMessage (fun _ => true)
    (by decide) (by decide)

/-- C4 counterexample: the claim quantifies over every channel and every
moment, but when the channel is already registered for the ticket, connect
followed by disconnect leaves one registration behind (Python list.remove
removes a single occurrence), so the channel is not absent. Here channel
10 is already in room 1 of twoChanManager. -/
theorem C4_counterexample_duplicate_registration :
    (10 : Nat) ∈ disconnect (connect twoChanManager 1 10) 1 10 1 := by decide

/-- C4 amended: for a channel not already registered for ticket t,
connect(t, c) followed by disconnect(t, c) leaves c absent from the room
of t, and a broadcast on t performed afterward never sends to c. -/
theorem C4_connect_disconnect_roundtrip (m : Manager Chan) (t : Nat)
    (c : Chan) (sendOk : Chan → Bool) (msg2 : String) (h : c ∉ m t) :
    c ∉ disconnect (connect m t c) t c t
    ∧ ∀ p ∈ (broadcast sendOk (disconnect (connect m t c) t c) t msg2).delivered,
        p.1 ≠ c := by
  have hroom := connect_disconnect_fresh m t c h
  constructor
  · rw [hroom]; exact h
  · intro p hp hpc
    have hmem : p.1 ∈ disconnect (connect m t c) t c t :=
      broadcastRun_delivered_mem sendOk msg2 _ p hp
    rw [hroom, hpc] at hmem
    exact h hmem

/-- Witness for the amended C4: channel 30 is fresh for room 1 of
twoChanManager; after the round trip it is absent and unreachable. -/
theorem C4_witness :
    (30 : Nat) ∉ disconnect (connect twoChanManager 1 30) 1 30 1
    ∧ ∀ p ∈ (broadcast (fun _ => true)
        (disconnect (connect twoChanManager 1 30) 1 30) 1 exMessage).delivered,
        p.1 ≠ 30 :=
  C4_connect_disconnect_roundtrip twoChanManager 1 30 (fun _ => true) exMessage
    (by decide)

/-- C10: the registry does not deduplicate. Connecting the same channel
twice to a room it was not in leaves two occurrences, a broadcast whose
sends all succeed delivers to it once per occurrence (twice), and a single
disconnect removes exactly one occurrence, leaving the channel still
registered. -/
theorem C10_no_deduplication (m : Manager Chan) (t : Nat) (c : Chan)
    (sendOk : Chan → Bool) (msg2 : String) (h : c ∉ m t)
    (hok : ∀ d ∈ connect (connect m t c) t c t, sendOk d = true) :
    (connect (connect m t c) t c t).count c = 2
    ∧ ((broadcast sendOk (connect (connect m t c) t c) t msg2).delivered.map
        Prod.fst).count c = 2
    ∧ (disconnect (connect (connect m t c) t c) t c t).count c = 1
    ∧ c ∈ disconnect (connect (connect m t c) t c) t c t := by
  have hl : connect (connect m t c) t c t = m t ++ ([c] ++ [c]) := by
    simp [connect]
  have hcount0 : (m t).count c = 0 := List.count_eq_zero.mpr h
  have herase : ([c] ++ [c]).erase c = [c] := by
    rw [List.singleton_append, List.erase_cons_head]
  have hdis : disconnect (connect (connect m t c) t c) t c t
      = (connect (connect m t c) t c t).erase c := by
    simp [disconnect]
  have hdis2 : disconnect (connect (connect m t c) t c) t c t = m t ++ [c] := by
    rw [hdis, hl, List.erase_append_right _ h, herase]
  have hb : broadcast sendOk (connect (connect m t c) t c) t msg2
      = .ok ((connect (connect m t c) t c t).map (fun d => (d, msg2))) :=
    broadcastRun_all_ok sendOk msg2 _ hok
  refine ⟨?_, ?_, ?_, ?_⟩
  · rw [hl]
    simp [List.count_append, hcount0]
  · rw [hb]
    simp only [BroadcastResult.delivered, List.map_map]
    have hid : (Prod.fst ∘ fun d : Chan => (d, msg2)) = id := rfl
    rw [hid, List.map_id, hl]
    simp [List.count_append, hcount0]
  · rw [hdis2]
    simp [List.count_append, hcount0]
  · rw [hdis2]
    exact List.mem_append_right _ (List.mem_singleton_self c)

/-- Witness for C10: channel 10 connected twice to the fresh room 1. -/
theorem C10_witness :
    (connect (connect (emptyManager : Manager Nat) 1 10) 1 10 1).count 10 = 2
    ∧ ((broadcast (fun _ => true)
        (connect (connect (emptyManager : Manager Nat) 1 10) 1 10) 1
        exMessage).delivered.map Prod.fst).count 10 = 2
    ∧ (disconnect (connect (connect (emptyManager : Manager Nat) 1 10) 1 10)
        1 10 1).count 10 = 1
    ∧ (10 : Nat) ∈ disconnect
        (connect (connect (emptyManager : Manager Nat) 1 10) 1 10) 1 10 1 :=
  C10_no_deduplication (emptyManager : Manager Nat) 1 10 (fun _ => true)
    exMessage (by decide) (by decide)

/-- C1, evaluated at the failing input: with a Credential Service that
rejects every token (the resolver is constantly none), a connect carrying
a present but unresolvable token is nevertheless accepted and registered
in the room — the handler never consults the resolver — while a connect
with the token parameter absent is closed with code 4401 and never
reaches connect. The claim that resolution happens before accepting is
therefore false of the code. -/
theorem C1_unresolved_token_still_registered :
    (ticket_ws (fun _ => (none : Option Nat)) (emptyManager : Manager Nat) 1 0
      (some badToken)).registered = true
    ∧ (ticket_ws (fun _ => (none : Option Nat)) (emptyManager : Manager Nat) 1 0
      (some badToken)).closeCode = none
    ∧ (ticket_ws (fun _ => (none : Option Nat)) (emptyManager : Manager Nat) 1 0
      (some badToken)).manager 1 = [0]
    ∧ (ticket_ws (fun _ => (none : Option Nat)) (emptyManager : Manager Nat) 1 0
      none).closeCode = some 4401
    ∧ (ticket_ws (fun _ => (none : Option Nat)) (emptyManager : Manager Nat) 1 0
      none).registered = false := by decide

/-- C2, evaluated at the failing input: room 1 holds channels 10 then 20
and the send to channel 10 fails. The broadcast raises at once: nothing is
delivered to channel 20, the failing channel stays registered (the
registry is untouched), and the add_reply endpoint that triggered the
broadcast ends in an unhandled error even though the reply row was already
committed. The claim that siblings still receive the message, that the
failing channel is disconnected, and that the failure never propagates is
therefore false of the code. -/
theorem C2_failing_send_aborts_broadcast :
    broadcast failOn10 twoChanManager 1 exMessage = .raised [] 10
    ∧ (add_reply_endpoint failOn10 twoChanManager exDB 1 exMessage 7).2.2
        = EndpointResult.error
    ∧ (add_reply_endpoint failOn10 twoChanManager exDB 1 exMessage 7).2.1 1
        = [10, 20]
    ∧ (add_reply_endpoint failOn10 twoChanManager exDB 1 exMessage 7).1.replies
        = exDB.replies ++
          [{ id := 3, ticket_id := 1, message := exMessage, created_at := 9,
             replied_by := 7 }] := by decide

/-- C5: for an existing ticket, viewing the detail is permitted exactly
when the requester has the agent role or owns the ticket; any other
identity receives forbidden, which is never downgraded to notFound. -/
theorem C5_view_permission (db : DB) (u : User) (tid : Nat) (t : Ticket)
    (rows : List Reply) (ht : get_ticket db tid = some t) :
    (get_ticket_detail db u tid rows = .ok t rows
      ↔ (u.role = UserRole.agent ∨ u.id = t.created_by))
    ∧ (¬(u.role = UserRole.agent ∨ u.id = t.created_by) →
        get_ticket_detail db u tid rows = .forbidden)
    ∧ get_ticket_detail db u tid rows ≠ .notFound := by
  have hd : get_ticket_detail db u tid rows =
      if u.role = UserRole.user ∧ t.created_by ≠ u.id then .forbidden
      else .ok t rows := by
    simp [get_ticket_detail, get_ticket_with_replies, ht]
  by_cases hagent : u.role = UserRole.agent
  · have hcond : ¬(u.role = UserRole.user ∧ t.created_by ≠ u.id) := by
      rintro ⟨h1, -⟩
      rw [hagent] at h1
      exact UserRole.noConfusion h1
    rw [hd, if_neg hcond]
    exact ⟨⟨fun _ => Or.inl hagent, fun _ => rfl⟩,
      fun hn => absurd (Or.inl hagent) hn, fun h => DetailResult.noConfusion h⟩
  · have huser : u.role = UserRole.user := by
      cases hu : u.role with
      | user => exact rfl
      | agent => exact absurd hu hagent
    by_cases hown : u.id = t.created_by
    · have hcond : ¬(u.role = UserRole.user ∧ t.created_by ≠ u.id) := by
        rintro ⟨-, h2⟩
        exact h2 hown.symm
      rw [hd, if_neg hcond]
      exact ⟨⟨fun _ => Or.inr hown, fun _ => rfl⟩,
        fun hn => absurd (Or.inr hown) hn, fun h => DetailResult.noConfusion h⟩
    · have hcond : u.role = UserRole.user ∧ t.created_by ≠ u.id :=
        ⟨huser, fun h2 => hown h2.symm⟩
      rw [hd, if_pos hcond]
      refine ⟨⟨fun h => DetailResult.noConfusion h, ?_⟩, fun _ => rfl,
        fun h => DetailResult.noConfusion h⟩
      intro hor
      rcases hor with h | h
      · exact absurd h hagent
      · exact absurd h hown

/-- Witness for C5 at the spec scenario: exOther is a non-agent non-owner
asking for the detail of ticket 1, which exists; the result is forbidden,
not notFound. -/
theorem C5_witness :
    (get_ticket_detail exDB exOther 1 [exReply1, exReply2]
        = DetailResult.ok exTicket [exReply1, exReply2]
      ↔ (exOther.role = UserRole.agent ∨ exOther.id = exTicket.created_by))
    ∧ (¬(exOther.role = UserRole.agent ∨ exOther.id = exTicket.created_by) →
        get_ticket_detail exDB exOther 1 [exReply1, exReply2]
          = DetailResult.forbidden)
    ∧ get_ticket_detail exDB exOther 1 [exReply1, exReply2]
        ≠ DetailResult.notFound :=
  C5_view_permission exDB exOther 1 exTicket [exReply1, exReply2] (by decide)

/-- C6: add_reply on a nonexistent ticket id returns none and leaves the
store exactly as it was (no orphan reply row); on an existing ticket it
appends exactly one reply row and never writes the tickets table, so the
ticket status is untouched. -/
theorem C6_add_reply_spec (db : DB) (tid : Nat) (message : String)
    (agent_id : Nat) :
    (find_ticket db tid = none → add_reply db tid message agent_id = (db, none))
    ∧ (∀ t, find_ticket db tid = some t →
        add_reply db tid message agent_id =
          ({ db with
              replies := db.replies ++
                [{ id := db.next_reply_id, ticket_id := tid, message := message,
                   created_at := db.now, replied_by := agent_id }],
              next_reply_id := db.next_reply_id + 1 },
           some { id := db.next_reply_id, ticket_id := tid, message := message,
                  created_at := db.now, replied_by := agent_id }))
    ∧ (add_reply db tid message agent_id).1.tickets = db.tickets := by
  refine ⟨?_, ?_, ?_⟩
  · intro h; simp [add_reply, h]
  · intro t ht; simp [add_reply, ht]
  · cases hf : find_ticket db tid with
    | none => simp [add_reply, hf]
    | some t => simp [add_reply, hf]

/-- Witness for C6: ticket 5 does not exist in exDB, ticket 1 does. -/
theorem C6_witness :
    add_reply exDB 5 exMessage 7 = (exDB, none)
    ∧ add_reply exDB 1 exMessage 7 =
        ({ exDB with
            replies := exDB.replies ++
              [{ id := exDB.next_reply_id, ticket_id := 1, message := exMessage,
                 created_at := exDB.now, replied_by := 7 }],
            next_reply_id := exDB.next_reply_id + 1 },
         some { id := exDB.next_reply_id, ticket_id := 1, message := exMessage,
                created_at := exDB.now, replied_by := 7 }) :=
  ⟨(C6_add_reply_spec exDB 5 exMessage 7).1 (by decide),
   (C6_add_reply_spec exDB 1 exMessage 7).2.1 exTicket (by decide)⟩

/-- C7: change_status overwrites the status of the ticket row
unconditionally — any status value is written with no transition guard —
and when the new status equals the current one the call is a no-op: the
store and the returned ticket are exactly the originals. Stated for a
ticket object loaded from the store (it is a row, and rows with its id
agree with it). -/
theorem C7_change_status_overwrite (db : DB) (ticket : Ticket)
    (s : TicketStatus) (hmem : ticket ∈ db.tickets)
    (huniq : ∀ t ∈ db.tickets, t.id = ticket.id → t = ticket) :
    (change_ticket_status db ticket s).2.status = s
    ∧ { ticket with status := s } ∈ (change_ticket_status db ticket s).1.tickets
    ∧ (s = ticket.status → change_ticket_status db ticket s = (db, ticket)) := by
  refine ⟨rfl, ?_, ?_⟩
  · have hmap : (fun t => if t.id = ticket.id then { t with status := s } else t)
        ticket = { ticket with status := s } := by simp
    have h2 := List.mem_map_of_mem
      (fun t => if t.id = ticket.id then { t with status := s } else t) hmem
    rw [hmap] at h2
    exact h2
  · intro hs
    subst hs
    have hpt : ∀ t ∈ db.tickets,
        (if t.id = ticket.id then { t with status := ticket.status } else t) = t := by
      intro t htmem
      by_cases hid : t.id = ticket.id
      · rw [if_pos hid, huniq t htmem hid]
      · rw [if_neg hid]
    have hmapid : db.tickets.map (fun t =>
        if t.id = ticket.id then { t with status := ticket.status } else t)
        = db.tickets := by
      calc db.tickets.map (fun t =>
            if t.id = ticket.id then { t with status := ticket.status } else t)
          = db.tickets.map (fun t => t) := List.map_congr_left hpt
        _ = db.tickets := by simp
    unfold change_ticket_status
    rw [hmapid]

/-- Witness for C7: overwriting to close sets close; rewriting open over
open leaves the store and the ticket untouched. -/
theorem C7_witness :
    (change_ticket_status exDB exTicket TicketStatus.close).2.status
        = TicketStatus.close
    ∧ change_ticket_status exDB exTicket TicketStatus.open_ = (exDB, exTicket) :=
  ⟨(C7_change_status_overwrite exDB exTicket TicketStatus.close
      (by decide) (by decide)).1,
   (C7_change_status_overwrite exDB exTicket TicketStatus.open_
      (by decide) (by decide)).2.2 rfl⟩

/-- C8 counterexample: the reply query requests no ordering (the replies
relationship declares no order_by and the select issues no ORDER BY), so
the store may legally enumerate the two replies of ticket 1 newest-first;
the detail then returns them out of creation order. -/
theorem C8_counterexample_unordered_fetch :
    storeOrder exDB 1 [exReply2, exReply1]
    ∧ get_ticket_with_replies exDB 1 [exReply2, exReply1]
        = some (exTicket, [exReply2, exReply1])
    ∧ ¬ sortedByCreation [exReply2, exReply1] := by
  refine ⟨?_, by decide, ?_⟩
  · have hf : repliesFor exDB 1 = [exReply1, exReply2] := by decide
    rw [storeOrder, hf]
    exact List.Perm.swap exReply1 exReply2 []
  · intro h
    rcases List.pairwise_cons.mp h with ⟨h1, -⟩
    have h2 := h1 exReply1 (List.mem_singleton_self _)
    exact absurd h2 (by decide)

/-- C8 amended: the replies returned with the ticket detail are exactly
the replies of that ticket (a permutation of the matching rows), in the
order the store enumerates them; ascending creation order holds when the
store enumerates the table in insertion order and creation times are
nondecreasing along the table, but is not forced by the query itself. -/
theorem C8_replies_content_and_order (db : DB) (tid : Nat) (t : Ticket)
    (rows : List Reply) (ht : get_ticket db tid = some t)
    (hrows : storeOrder db tid rows) :
    get_ticket_with_replies db tid rows = some (t, rows)
    ∧ rows.Perm (repliesFor db tid)
    ∧ (rows = repliesFor db tid → sortedByCreation db.replies →
        sortedByCreation rows) := by
  refine ⟨by simp [get_ticket_with_replies, ht], hrows, ?_⟩
  intro hr hsorted
  rw [hr]
  exact List.Pairwise.filter _ hsorted

/-- Witness for the amended C8: the store enumerates the replies of
ticket 1 in insertion order, which here is creation order. -/
theorem C8_witness :
    get_ticket_with_replies exDB 1 [exReply1, exReply2]
        = some (exTicket, [exReply1, exReply2])
    ∧ List.Perm [exReply1, exReply2] (repliesFor exDB 1)
    ∧ ([exReply1, exReply2] = repliesFor exDB 1 →
        sortedByCreation exDB.replies →
        sortedByCreation [exReply1, exReply2]) :=
  C8_replies_content_and_order exDB 1 exTicket [exReply1, exReply2]
    (by decide) (by rw [storeOrder]; exact List.Perm.refl _)

/-- C9: create_ticket with an existing owner succeeds and yields a ticket
whose status is open, whose created_by is the owner, whose created_at
comes from the server clock, and which is appended to the tickets table. -/
theorem C9_create_ticket_spec (db : DB) (title : String)
    (description : Option String) (owner : Nat)
    (howner : ∃ u ∈ db.users, u.id = owner) :
    (create_ticket db title description owner).2.status = TicketStatus.open_
    ∧ (create_ticket db title description owner).2.created_by = owner
    ∧ (create_ticket db title description owner).2.created_at = db.now
    ∧ (create_ticket db title description owner).1.tickets
        = db.tickets ++ [(create_ticket db title description owner).2] :=
  ⟨rfl, rfl, rfl, rfl⟩

/-- Witness for C9: user 1 exists in exDB. -/
theorem C9_witness :
    (create_ticket exDB exTitle none 1).2.status = TicketStatus.open_
    ∧ (create_ticket exDB exTitle none 1).2.created_by = 1
    ∧ (create_ticket exDB exTitle none 1).2.created_at = exDB.now
    ∧ (create_ticket exDB exTitle none 1).1.tickets
        = exDB.tickets ++ [(create_ticket exDB exTitle none 1).2] :=
  C9_create_ticket_spec exDB exTitle none 1 (by decide)

end TicketSystem
